import Mathlib

/-
Verification development for the pagi-digital-twin repository.

Shallow embedding of:
  - src/backend-python-agent/tool_parser.py   (parse_tool_call)
  - src/backend-python-agent/agent_loop.py    (AgentLoop.run_agent)
  - src/backend-python-memory/main.py         (store_memory endpoint)
  - src/backend-python-memory/memory_service.py
      (rag_retrieve, store_mind_playbook, summarize_history_for_mind_kb,
       get_session_history)

Python JSON values are modelled by the inductive type `Json`.  Python's
`json.loads` is modelled by `jsonParse` (a fuel-based recursive descent
parser following the grammar implemented by Python's json module: the
whitespace set [ \t\n\r], strict rejection of raw control characters in
strings, the number regex (-?(0|[1-9][0-9]*))(\.[0-9]+)?([eE][+-]?[0-9]+)?,
and last-wins duplicate object keys).  Modelling boundaries, none of which
any claim touches: numeric literals are kept exactly as a decimal
mantissa/exponent pair instead of Python's int/float split, the non-standard
NaN/Infinity literals accepted by Python are not modelled (floating point),
and a lone surrogate \uXXXX escape (representable in a Python str but not
as a Unicode scalar value) decodes to U+FFFD.
-/

/-- Json models a Python value produced by json.loads: None, bool, int/float
(kept as mantissa m and decimal exponent e, denoting m * 10^e), str, list,
and dict (assoc list in insertion order, keys unique by construction). -/
inductive Json where
  | null : Json
  | bool (b : Bool) : Json
  | num (m : Int) (e : Int) : Json
  | str (s : String) : Json
  | arr (elems : List Json) : Json
  | obj (fields : List (String × Json)) : Json

/-- Dict lookup, Python `d.get(k)`: first matching key (parser keeps keys
unique, mirroring dict construction). -/
def Json.get : Json → String → Option Json
  | .obj fields, k => go fields k
  | _, _ => none
where go : List (String × Json) → String → Option Json
  | [], _ => none
  | (k₀, v) :: rest, k => if k₀ = k then some v else go rest k

/-- Whether a Json value is a Python dict. -/
def Json.isObj : Json → Bool
  | .obj _ => true
  | _ => false

/-- Whether a Json value is a Python list. -/
def Json.isArr : Json → Bool
  | .arr _ => true
  | _ => false

/-- Dict insertion, Python `d[k] = v`: replace the value at an existing key
in place, else append (insertion order preserved). -/
def objInsert : List (String × Json) → String → Json → List (String × Json)
  | [], k, v => [(k, v)]
  | (k₀, v₀) :: rest, k, v =>
      if k₀ = k then (k, v) :: rest else (k₀, v₀) :: objInsert rest k v

/-- Whitespace skipped by Python's json scanner: space, tab, newline,
carriage return. -/
def isJsonWs (c : Char) : Bool :=
  c = ' ' || c = '\t' || c = '\n' || c = '\r'

/-- Drop leading JSON whitespace. -/
def skipWs (cs : List Char) : List Char :=
  cs.dropWhile isJsonWs

/-- Hex digit value, for \uXXXX escapes. -/
def hexVal (c : Char) : Option Nat :=
  if '0' ≤ c ∧ c ≤ '9' then some (c.toNat - '0'.toNat)
  else if 'a' ≤ c ∧ c ≤ 'f' then some (c.toNat - 'a'.toNat + 10)
  else if 'A' ≤ c ∧ c ≤ 'F' then some (c.toNat - 'A'.toNat + 10)
  else none

/-- Decode the four hex digits of a \uXXXX escape. -/
def hex4 : List Char → Option (Nat × List Char)
  | a :: b :: c :: d :: rest => do
      let va ← hexVal a
      let vb ← hexVal b
      let vc ← hexVal c
      let vd ← hexVal d
      some (((va * 16 + vb) * 16 + vc) * 16 + vd, rest)
  | _ => none

/-- JSON string body parser (after the opening quote), strict mode: raw
control characters below 0x20 are rejected, escapes are the eight
single-character ones plus \uXXXX with surrogate-pair combination. -/
def parseJString : Nat → List Char → List Char → Option (String × List Char)
  | 0, _, _ => none
  | _ + 1, [], _ => none
  | fuel + 1, c :: rest, acc =>
      if c = '\"' then some (String.mk acc.reverse, rest)
      else if c = '\\' then
        match rest with
        | [] => none
        | e :: rest2 =>
            if e = '\"' then parseJString fuel rest2 ('\"' :: acc)
            else if e = '\\' then parseJString fuel rest2 ('\\' :: acc)
            else if e = '/' then parseJString fuel rest2 ('/' :: acc)
            else if e = 'b' then parseJString fuel rest2 (Char.ofNat 8 :: acc)
            else if e = 'f' then parseJString fuel rest2 (Char.ofNat 12 :: acc)
            else if e = 'n' then parseJString fuel rest2 ('\n' :: acc)
            else if e = 'r' then parseJString fuel rest2 ('\r' :: acc)
            else if e = 't' then parseJString fuel rest2 ('\t' :: acc)
            else if e = 'u' then
              match hex4 rest2 with
              | none => none
              | some (n, rest3) =>
                  if 0xD800 ≤ n ∧ n ≤ 0xDBFF then
                    match rest3 with
                    | '\\' :: 'u' :: rest4 =>
                        match hex4 rest4 with
                        | some (m, rest5) =>
                            if 0xDC00 ≤ m ∧ m ≤ 0xDFFF then
                              parseJString fuel rest5
                                (Char.ofNat
                                  (0x10000 + (n - 0xD800) * 0x400 + (m - 0xDC00)) :: acc)
                            else none
                        | none => none
                    | _ => parseJString fuel rest3 (Char.ofNat 0xFFFD :: acc)
                  else if 0xDC00 ≤ n ∧ n ≤ 0xDFFF then
                    parseJString fuel rest3 (Char.ofNat 0xFFFD :: acc)
                  else parseJString fuel rest3 (Char.ofNat n :: acc)
            else none
      else if c.toNat < 0x20 then none
      else parseJString fuel rest (c :: acc)

/-- Digits of a decimal run, with the remainder. -/
def takeDigits (cs : List Char) : List Char × List Char :=
  (cs.takeWhile Char.isDigit, cs.dropWhile Char.isDigit)

/-- Numeric value of a digit list (most significant first). -/
def digitsToNat (ds : List Char) : Nat :=
  ds.foldl (fun acc c => acc * 10 + (c.toNat - '0'.toNat)) 0

/-- JSON number parser following Python's NUMBER_RE: the integer part is 0 or
a nonzero-led digit run; a fraction or exponent part is consumed only when
complete (otherwise it is left in the remainder, as the regex would). -/
def parseJNumber (cs : List Char) : Option (Json × List Char) :=
  let (neg, cs1) :=
    match cs with
    | '-' :: rest => (true, rest)
    | _ => (false, cs)
  match cs1 with
  | [] => none
  | c :: _ =>
      if ¬ c.isDigit then none
      else
        let (intDs, cs2) :=
          if c = '0' then ([c], cs1.tail)
          else takeDigits cs1
        let (fracDs, cs3) :=
          match cs2 with
          | '.' :: d :: rest =>
              if d.isDigit then
                let (ds, r) := takeDigits (d :: rest)
                (ds, r)
              else ([], cs2)
          | _ => ([], cs2)
        let (expVal, cs4) :=
          match cs3 with
          | e :: rest =>
              if e = 'e' ∨ e = 'E' then
                match rest with
                | '+' :: d :: r2 =>
                    if d.isDigit then
                      let (ds, r) := takeDigits (d :: r2)
                      ((digitsToNat ds : Int), r)
                    else ((0 : Int), cs3)
                | '-' :: d :: r2 =>
                    if d.isDigit then
                      let (ds, r) := takeDigits (d :: r2)
                      (-(digitsToNat ds : Int), r)
                    else ((0 : Int), cs3)
                | d :: r2 =>
                    if d.isDigit then
                      let (ds, r) := takeDigits (d :: r2)
                      ((digitsToNat ds : Int), r)
                    else ((0 : Int), cs3)
                | [] => ((0 : Int), cs3)
              else ((0 : Int), cs3)
          | [] => ((0 : Int), cs3)
        let mantissaNat : Nat := digitsToNat (intDs ++ fracDs)
        let mantissa : Int := if neg then -(mantissaNat : Int) else (mantissaNat : Int)
        some (Json.num mantissa (expVal - (fracDs.length : Int)), cs4)

mutual

/-- JSON value parser (fuel-bounded recursive descent over the remaining
characters; dispatch on the first character as Python's scanner does). -/
def parseJValue : Nat → List Char → Option (Json × List Char)
  | 0, _ => none
  | _ + 1, [] => none
  | fuel + 1, c :: rest =>
      if c = '\"' then
        match parseJString fuel rest [] with
        | some (s, r) => some (Json.str s, r)
        | none => none
      else if c = '\x7b' then
        let r1 := skipWs rest
        match r1 with
        | '\x7d' :: r2 => some (Json.obj [], r2)
        | _ => parseJMembers fuel r1 []
      else if c = '[' then
        let r1 := skipWs rest
        match r1 with
        | ']' :: r2 => some (Json.arr [], r2)
        | _ => parseJElems fuel r1 []
      else if c = 'n' then
        match rest with
        | 'u' :: 'l' :: 'l' :: r => some (Json.null, r)
        | _ => none
      else if c = 't' then
        match rest with
        | 'r' :: 'u' :: 'e' :: r => some (Json.bool true, r)
        | _ => none
      else if c = 'f' then
        match rest with
        | 'a' :: 'l' :: 's' :: 'e' :: r => some (Json.bool false, r)
        | _ => none
      else if c.isDigit ∨ c = '-' then parseJNumber (c :: rest)
      else none

/-- Object members (positioned at a key's opening quote). -/
def parseJMembers : Nat → List Char → List (String × Json) →
    Option (Json × List Char)
  | 0, _, _ => none
  | _ + 1, [], _ => none
  | fuel + 1, c :: rest, acc =>
      if c = '\"' then
        match parseJString fuel rest [] with
        | none => none
        | some (k, r1) =>
            match skipWs r1 with
            | ':' :: r2 =>
                match parseJValue fuel (skipWs r2) with
                | none => none
                | some (v, r3) =>
                    let acc' := objInsert acc k v
                    match skipWs r3 with
                    | ',' :: r4 => parseJMembers fuel (skipWs r4) acc'
                    | '\x7d' :: r4 => some (Json.obj acc', r4)
                    | _ => none
            | _ => none
      else none

/-- Array elements (positioned at the first element). -/
def parseJElems : Nat → List Char → List Json → Option (Json × List Char)
  | 0, _, _ => none
  | fuel + 1, cs, acc =>
      match parseJValue fuel cs with
      | none => none
      | some (v, r1) =>
          let acc' := acc ++ [v]
          match skipWs r1 with
          | ',' :: r2 => parseJElems fuel (skipWs r2) acc'
          | ']' :: r2 => some (Json.arr acc', r2)
          | _ => none

end

/-- Python json.loads on a string: skip leading whitespace, parse one value,
require only whitespace after it; None models a raised JSONDecodeError. -/
def jsonParse (s : String) : Option Json :=
  let cs := skipWs s.data
  match parseJValue (2 * s.data.length + 8) cs with
  | some (v, rest) => if skipWs rest = [] then some v else none
  | none => none

/-- Characters removed by Python str.strip() with no argument (the ASCII
whitespace subset; the Unicode space characters never occur in this code). -/
def isPyWs (c : Char) : Bool :=
  c = ' ' || c = '\t' || c = '\n' || c = '\r' ||
  c = Char.ofNat 11 || c = Char.ofNat 12

/-- Python str.strip(): drop leading and trailing whitespace. -/
def pyStrip (s : String) : String :=
  String.mk ((s.data.dropWhile isPyWs).reverse.dropWhile isPyWs).reverse

example : jsonParse "" = none := by rfl
example : jsonParse "not json" = none := by rfl
example : jsonParse "[]" = some (Json.arr []) := by rfl
example : jsonParse "\x7b\x7d" = some (Json.obj []) := by rfl
example : jsonParse " \x7b \"a\" : 1 , \"b\" : [true, null] \x7d " =
    some (Json.obj [("a", Json.num 1 0), ("b", Json.arr [Json.bool true, Json.null])]) := by
  rfl
example : jsonParse "\x7b\"tool\":\x7b\"name\":\"n\",\"args\":\x7b\"a\":1\x7d\x7d\x7d" =
    some (Json.obj [("tool", Json.obj [("name", Json.str "n"),
      ("args", Json.obj [("a", Json.num 1 0)])])]) := by rfl
example : pyStrip "  n\t " = "n" := by rfl
example : jsonParse "-12.5e2" = some (Json.num (-125) 1) := by rfl

/-- Hex digit character (lowercase), for \uXXXX output escapes. -/
def hexDigitChar (n : Nat) : Char :=
  if n < 10 then Char.ofNat ('0'.toNat + n)
  else Char.ofNat ('a'.toNat + n - 10)

/-- Render a \uXXXX escape for a 16-bit code unit. -/
def u4Escape (n : Nat) : List Char :=
  ['\\', 'u', hexDigitChar (n / 4096 % 16), hexDigitChar (n / 256 % 16),
   hexDigitChar (n / 16 % 16), hexDigitChar (n % 16)]

/-- Escape one character as Python json.dumps does with ensure_ascii=True:
the short escapes, \uXXXX for other control or non-ASCII characters, and a
surrogate pair for astral code points. -/
def escChar (c : Char) : List Char :=
  if c = '\\' then ['\\', '\\']
  else if c = '\"' then ['\\', '\"']
  else if c = Char.ofNat 8 then ['\\', 'b']
  else if c = Char.ofNat 12 then ['\\', 'f']
  else if c = '\n' then ['\\', 'n']
  else if c = '\r' then ['\\', 'r']
  else if c = '\t' then ['\\', 't']
  else if c.toNat < 0x20 ∨ 0x7e < c.toNat then
    if c.toNat < 0x10000 then u4Escape c.toNat
    else
      u4Escape (0xD800 + (c.toNat - 0x10000) / 0x400) ++
      u4Escape (0xDC00 + (c.toNat - 0x10000) % 0x400)
  else [c]

/-- Serialize a string as a JSON string literal. -/
def dumpJString (s : String) : String :=
  "\"" ++ String.mk (s.data.flatMap escChar) ++ "\""

mutual

/-- Python json.dumps with default separators. Numeric values are rendered
from the mantissa/exponent pair (an integer literal when the exponent is 0);
no claim depends on the numeric rendering. -/
def jsonDumps : Json → String
  | .null => "null"
  | .bool true => "true"
  | .bool false => "false"
  | .num m e => if e = 0 then toString m else toString m ++ "e" ++ toString e
  | .str s => dumpJString s
  | .arr l => "[" ++ String.intercalate ", " (jsonDumpsList l) ++ "]"
  | .obj fs => "\x7b" ++ String.intercalate ", " (jsonDumpsFields fs) ++ "\x7d"
termination_by structural j => j

/-- Serialized array elements, in order. -/
def jsonDumpsList : List Json → List String
  | [] => []
  | v :: rest => jsonDumps v :: jsonDumpsList rest
termination_by structural l => l

/-- Serialized object members, in order, with the default ": " separator. -/
def jsonDumpsFields : List (String × Json) → List String
  | [] => []
  | (k, v) :: rest => (dumpJString k ++ ": " ++ jsonDumps v) :: jsonDumpsFields rest
termination_by structural l => l

end

example : jsonDumps (Json.arr []) = "[]" := by rfl
example : jsonDumps (Json.obj [("a", Json.num 1 0), ("b", Json.str "x")]) =
    "\x7b\"a\": 1, \"b\": \"x\"\x7d" := by rfl

/-
Embedding of src/backend-python-agent/tool_parser.py.

A parsed tool call is the pair (tool name, args dict fields).  The two
format blocks of parse_tool_call are kept as separate definitions exactly
as the source duplicates them; falling out of a block with no return is
modelled by the block producing none.
-/

/-- Format-1 block of parse_tool_call: tries the key "tool" with args key
"args".  Python's tool_obj.get returns None both when the key is absent and
when its value is JSON null, so a null "name" fails the isinstance check and
a null "args" is replaced by the empty dict. -/
def toolFormat1 (data : Json) : Option (String × List (String × Json)) :=
  match data.get "tool" with
  | some (Json.obj toolFields) =>
      let tObj := Json.obj toolFields
      match tObj.get "name" with
      | some (Json.str n) =>
          if pyStrip n = "" then none
          else
            match tObj.get "args" with
            | none => some (pyStrip n, [])
            | some Json.null => some (pyStrip n, [])
            | some (Json.obj argFields) => some (pyStrip n, argFields)
            | some _ => none
      | _ => none
  | _ => none

/-- Format-2 block of parse_tool_call: tries the key "tool_call" with args
key "arguments"; otherwise identical to the format-1 block. -/
def toolFormat2 (data : Json) : Option (String × List (String × Json)) :=
  match data.get "tool_call" with
  | some (Json.obj toolFields) =>
      let tObj := Json.obj toolFields
      match tObj.get "name" with
      | some (Json.str n) =>
          if pyStrip n = "" then none
          else
            match tObj.get "arguments" with
            | none => some (pyStrip n, [])
            | some Json.null => some (pyStrip n, [])
            | some (Json.obj argFields) => some (pyStrip n, argFields)
            | some _ => none
      | _ => none
  | _ => none

/-- parse_tool_call from tool_parser.py: an empty payload or a payload that
fails json.loads, or parses to a non-dict, yields None; otherwise the
format-1 block is tried and, when it falls through, the format-2 block. -/
def parse_tool_call (llm_plan_json : String) :
    Option (String × List (String × Json)) :=
  if llm_plan_json = "" then none
  else
    match jsonParse llm_plan_json with
    | none => none
    | some data =>
        if data.isObj then
          match toolFormat1 data with
          | some r => some r
          | none => toolFormat2 data
        else none

/-
Spec-side rendering of section 4.2 of the specification, used to state the
refinement claims about parse_tool_call.  specToolShape follows the spec's
words: the shape under `key` must be an object whose `name` is a string that
is non-empty after trimming; absent or null args mean the empty object; args
of any other non-object shape reject the whole shape.
-/

/-- Shape acceptor written from the specification text (section 4.2), for
the shape stored under `key` with argument key `argsKey`. -/
def specToolShape (key argsKey : String) (root : Json) :
    Option (String × List (String × Json)) :=
  match root.get key with
  | some (Json.obj toolFields) =>
      match (Json.obj toolFields).get "name" with
      | some (Json.str n) =>
          if pyStrip n = "" then none
          else
            match (Json.obj toolFields).get argsKey with
            | none => some (pyStrip n, [])
            | some Json.null => some (pyStrip n, [])
            | some (Json.obj argFields) => some (pyStrip n, argFields)
            | some _ => none
      | _ => none
  | _ => none

/-- The format-1 block realizes the spec's shape 1. -/
theorem toolFormat1_eq_spec (d : Json) :
    toolFormat1 d = specToolShape "tool" "args" d := by
  rfl

/-- The format-2 block realizes the spec's shape 2. -/
theorem toolFormat2_eq_spec (d : Json) :
    toolFormat2 d = specToolShape "tool_call" "arguments" d := by
  rfl

example : parse_tool_call "\x7b\"tool\":\x7b\"name\":\"n\",\"args\":\x7b\"a\":1\x7d\x7d\x7d" =
    some ("n", [("a", Json.num 1 0)]) := by rfl
example : parse_tool_call "\x7b\"tool\":\x7b\"name\":\" n \"\x7d\x7d" =
    some ("n", []) := by rfl
example : parse_tool_call "\x7b\"tool\":\x7b\"name\":\"  \"\x7d,\"tool_call\":\x7b\"name\":\"m\",\"arguments\":null\x7d\x7d" =
    some ("m", []) := by rfl
example : parse_tool_call "\x7b\"tool\":\x7b\x7d\x7d" = none := by rfl
example : parse_tool_call "" = none := by rfl
example : parse_tool_call "not json" = none := by rfl
example : parse_tool_call "[]" = none := by rfl

/-
Embedding of src/backend-python-agent/agent_loop.py (AgentLoop.run_agent).

Collaborators (grpc_client.get_llm_plan, memory_client.get_session_history,
the optional tool executor) are fields of AgentEnv, as the spec treats them:
opaque calls that return a result or raise.  A raise of the plan-source call
is a PlanOutcome constructor, mirroring the two except arms of the source.
Tracing spans are side-effect-free and not modelled.
-/

/-- Single quote character, written via its code point. -/
def sQuote : String := String.singleton (Char.ofNat 39)

/-- The llm_response dict as the loop observes it: the initial empty dict, a
successful GetPlan payload (whose "plan" key may be absent), or one of the
two error dicts built by the except arms (the generic arm carries no code). -/
inductive LlmResp where
  | initEmpty : LlmResp
  | okResp (plan : Option String) : LlmResp
  | errResp (error : String) (code : Option String) (details : String) : LlmResp

/-- Outcome of one get_llm_plan call: a returned payload, a raised
grpc.aio.AioRpcError (code name and details), or any other exception
(class name and str). -/
inductive PlanOutcome where
  | ok (plan : Option String) : PlanOutcome
  | grpcRaise (code details : String) : PlanOutcome
  | excRaise (clsName details : String) : PlanOutcome

/-- The try/except around get_llm_plan: a raise becomes the structured error
dict that the loop stores as llm_response. -/
def interpretPlanCall : PlanOutcome → LlmResp
  | .ok p => .okResp p
  | .grpcRaise c d => .errResp "grpc_error" (some c) d
  | .excRaise n d => .errResp n none d

/-- llm_response.get("plan", "\x7b\x7d"): the plan string, defaulting to the
literal text of an empty JSON object. -/
def LlmResp.planDefault : LlmResp → String
  | .okResp (some p) => p
  | _ => "\x7b\x7d"

/-- llm_response.get("plan") with no default, used for the final result. -/
def LlmResp.planOpt : LlmResp → Option String
  | .okResp (some p) => some p
  | _ => none

/-- One transcript entry: an llm_plan record or a tool_result record, with
the fields the source dict carries. -/
inductive Entry where
  | llmPlan (turn : Nat) (prompt : String) (llm_response : LlmResp) : Entry
  | toolResult (turn : Nat) (tool_name : String) (args : List (String × Json))
      (tool_result : Json) : Entry

/-- The structured error stored when a tool call arrives with no executor. -/
def noToolExecutorResult : Json :=
  Json.obj [("error", Json.str "no_tool_executor"),
    ("details", Json.str "AgentLoop was not initialized with a tool executor.")]

/-- Everything AgentLoop.run_agent consumes: the two constructor arguments,
the run_agent arguments, and the collaborator calls. -/
structure AgentEnv where
  prompt : String
  session_id : Option String
  request_id : Option String
  max_turns : Nat
  getHistory : String → List Json
  planSource : Nat → String → PlanOutcome
  tool_executor : Option (String → List (String × Json) → Json)

/-- Python `a or b` on an optional string: an absent or empty value is
falsy. -/
def pyOrStr (a : Option String) (b : String) : String :=
  match a with
  | some s => if s = "" then b else s
  | none => b

/-- Session id resolution: context session_id, else request_id, else the
sentinel. -/
def resolveSessionId (env : AgentEnv) : String :=
  pyOrStr env.session_id (pyOrStr env.request_id "session-unknown")

/-- The rendered history preamble prepended to the prompt on turn 0. -/
def historyPreamble (env : AgentEnv) : String :=
  "<history session_id=" ++ sQuote ++ resolveSessionId env ++ sQuote ++ ">\n" ++
    jsonDumps (Json.arr (env.getHistory (resolveSessionId env))) ++
    "\n</history>\n\n"

/-- The delimited block appended to the prompt after a tool execution. -/
def toolResponseBlock (tool_name body : String) : String :=
  "\n\n<tool_response tool=" ++ sQuote ++ tool_name ++ sQuote ++ ">\n" ++ body ++
    "\n</tool_response>"

/-- In-flight loop state: the mutable locals of run_agent, plus planCalls,
an explicit counter of plan-source invocations (pure instrumentation). -/
structure RunState where
  history : List Entry
  llm_response : LlmResp
  current_prompt : String
  planCalls : Nat

/-- The prompt used for the plan-source call of a given turn: augmented with
the history preamble on turn 0 only, otherwise the working prompt. -/
def promptAt (env : AgentEnv) (turn : Nat) (st : RunState) : String :=
  if turn = 0 then historyPreamble env ++ env.prompt else st.current_prompt

/-- The loop body of run_agent from a given turn with a given number of
remaining iterations: call the plan source, append the llm_plan entry, parse
the plan; on no tool call break, on a tool call with no executor append the
error entry and break, otherwise execute, append the tool_result entry,
extend the prompt and continue. -/
def runFrom (env : AgentEnv) : Nat → Nat → RunState → RunState
  | _, 0, st => st
  | turn, remaining + 1, st =>
      let current_prompt := promptAt env turn st
      let llm_response := interpretPlanCall (env.planSource turn current_prompt)
      let st1 : RunState :=
        { history := st.history ++ [Entry.llmPlan turn current_prompt llm_response]
          llm_response := llm_response
          current_prompt := current_prompt
          planCalls := st.planCalls + 1 }
      match parse_tool_call llm_response.planDefault with
      | none => st1
      | some (tool_name, args) =>
          match env.tool_executor with
          | none =>
              { st1 with history := st1.history ++
                  [Entry.toolResult turn tool_name args noToolExecutorResult] }
          | some ex =>
              let tool_result := ex tool_name args
              let st2 : RunState :=
                { st1 with
                  history := st1.history ++
                    [Entry.toolResult turn tool_name args tool_result]
                  current_prompt := current_prompt ++
                    toolResponseBlock tool_name (jsonDumps tool_result) }
              runFrom env (turn + 1) remaining st2

/-- The final loop state of one run_agent call. -/
def run_agentState (env : AgentEnv) : RunState :=
  runFrom env 0 env.max_turns ⟨[], .initEmpty, env.prompt, 0⟩

/-- The dict run_agent returns, field for field. -/
structure RunResult where
  turns_executed : Nat
  max_turns : Nat
  prompt : String
  llm_plan : Option String
  llm_response : LlmResp
  history : List Entry
  session_id : String

/-- AgentLoop.run_agent: run the loop and package the result dict. -/
def run_agent (env : AgentEnv) : RunResult :=
  let st := run_agentState env
  { turns_executed := st.history.length
    max_turns := env.max_turns
    prompt := env.prompt
    llm_plan := st.llm_response.planOpt
    llm_response := st.llm_response
    history := st.history
    session_id := resolveSessionId env }

/-- Number of plan-source invocations a run performs. -/
def run_agentPlanCalls (env : AgentEnv) : Nat :=
  (run_agentState env).planCalls

example :
    (run_agent
      { prompt := "plan X", session_id := some "s1", request_id := none,
        max_turns := 3, getHistory := fun _ => [],
        planSource := fun _ _ => .ok (some "\x7b\x7d"),
        tool_executor := none }).turns_executed = 1 := by rfl

/-
Embedding of the SQLite-backed session store of
src/backend-python-memory/memory_service.py and of the /memory/store
endpoint of src/backend-python-memory/main.py.

The sessions table (session_id TEXT PRIMARY KEY, history_json TEXT NOT NULL)
is a list of rows in insertion order; the primary key keeps first-match
lookup exact.
-/

/-- The sessions table. -/
structure SessionsDb where
  rows : List (String × String)

/-- SELECT history_json FROM sessions WHERE session_id = ?. -/
def lookupSession : List (String × String) → String → Option String
  | [], _ => none
  | (k, v) :: rest, sid => if k = sid then some v else lookupSession rest sid

/-- get_session_history from memory_service.py: read the row; parse its
history_json with json.loads, returning the parsed value when it is a list
and [] when parsing fails or yields a non-list; when no row exists, insert
an empty-history row and return []. -/
def get_session_history (db : SessionsDb) (session_id : String) :
    SessionsDb × List Json :=
  match lookupSession db.rows session_id with
  | some raw =>
      (db,
        match jsonParse raw with
        | some (Json.arr l) => l
        | some _ => []
        | none => [])
  | none => ({ rows := db.rows ++ [(session_id, "[]")] }, [])

/-- Request body of POST /memory/store (StoreHistoryPayload in main.py). -/
structure StoreHistoryPayload where
  session_id : String
  history : List Json
  prompt : String
  llm_response : Json
  stored_at : Option String

/-- Response of POST /memory/store. -/
structure StoreResponse where
  status : String
  session_id : String
  turns : Nat

/-- store_memory from main.py: the handler prints a structured log line and
returns the response; it performs no database operation (its docstring:
persistence is simulated), so the sessions store passes through unchanged.
turns is len(payload.history) (the isinstance guard of the source is
vacuously true under the pydantic type list). -/
def store_memory (db : SessionsDb) (payload : StoreHistoryPayload) :
    SessionsDb × StoreResponse :=
  (db,
    { status := "ok", session_id := payload.session_id,
      turns := payload.history.length })

/-
Embedding of rag_retrieve from src/backend-python-memory/memory_service.py.
The Chroma collection query is a collaborator: a function from knowledge
base name, query text and n_results to the raw result dict, whose three
relevant keys hold optional lists of per-query rows. Distances are opaque
backend floats; they are a type parameter D, passed through untouched.
-/

/-- One entry of the flat list rag_retrieve returns. -/
structure RagMatch (D : Type) where
  id : String
  text : String
  distance : D
  knowledge_base : String
  source : String

/-- The raw Chroma query result: each key may be missing (None) and holds
one row per query text (the service always sends exactly one query text). -/
structure QueryRes (D : Type) where
  ids : Option (List (List String))
  documents : Option (List (List String))
  distances : Option (List (List D))

/-- Python `(res.get(k) or [[...]])[0]`: a missing key or falsy (empty) list
yields the default row [], else the first row. -/
def firstRow {α : Type} : Option (List (List α)) → List α
  | none => []
  | some [] => []
  | some (r :: _) => r

/-- The `for i in range(min(len(ids), len(docs), len(dists)))` loop building
match dicts: truncates to the shortest of the three lists. -/
def buildMatches {D : Type} : List String → List String → List D → String →
    List (RagMatch D)
  | i :: is, d :: ds, t :: ts, kb =>
      { id := i, text := d, distance := t, knowledge_base := kb,
        source := "chroma" } :: buildMatches is ds ts kb
  | _, _, _, _ => []

/-- rag_retrieve: coerce top_k to at least 1, default the base list, then
for each base in order query the backend and append its matches. -/
def rag_retrieve {D : Type} (backend : String → String → Int → QueryRes D)
    (query : String) (knowledge_bases : Option (List String)) (top_k : Int) :
    List (RagMatch D) :=
  let top_k := if top_k ≤ 0 then 1 else top_k
  let kb_list := match knowledge_bases with | none => [] | some l => l
  let kb_list := if kb_list = [] then ["Body-KB"] else kb_list
  (kb_list.map fun kb =>
    let res := backend kb query top_k
    buildMatches (firstRow res.ids) (firstRow res.documents)
      (firstRow res.distances) kb).flatten

/-
SHA-256 over Nat words (each reduced mod 2^32), used by store_mind_playbook
for its content-addressed playbook id
(hashlib.sha256(text.encode("utf-8")).hexdigest()).
-/

/-- UTF-8 bytes of one code point. -/
def utf8Char (n : Nat) : List Nat :=
  if n < 0x80 then [n]
  else if n < 0x800 then [0xC0 + n / 0x40, 0x80 + n % 0x40]
  else if n < 0x10000 then
    [0xE0 + n / 0x1000, 0x80 + n / 0x40 % 0x40, 0x80 + n % 0x40]
  else
    [0xF0 + n / 0x40000, 0x80 + n / 0x1000 % 0x40, 0x80 + n / 0x40 % 0x40,
     0x80 + n % 0x40]

/-- Python str.encode("utf-8") as a byte list. -/
def utf8Bytes (s : String) : List Nat :=
  s.data.flatMap (fun c => utf8Char c.toNat)

/-- Rotate a 32-bit word right. -/
def rotr32 (x n : Nat) : Nat :=
  (x / 2 ^ n + x % 2 ^ n * 2 ^ (32 - n)) % 2 ^ 32

/-- SHA-256 Ch. -/
def shaCh (e f g : Nat) : Nat := (e &&& f) ^^^ ((0xFFFFFFFF ^^^ e) &&& g)

/-- SHA-256 Maj. -/
def shaMaj (a b c : Nat) : Nat := (a &&& b) ^^^ (a &&& c) ^^^ (b &&& c)

/-- SHA-256 big sigma 0. -/
def bsig0 (x : Nat) : Nat := rotr32 x 2 ^^^ rotr32 x 13 ^^^ rotr32 x 22

/-- SHA-256 big sigma 1. -/
def bsig1 (x : Nat) : Nat := rotr32 x 6 ^^^ rotr32 x 11 ^^^ rotr32 x 25

/-- SHA-256 small sigma 0. -/
def ssig0 (x : Nat) : Nat := rotr32 x 7 ^^^ rotr32 x 18 ^^^ x / 2 ^ 3

/-- SHA-256 small sigma 1. -/
def ssig1 (x : Nat) : Nat := rotr32 x 17 ^^^ rotr32 x 19 ^^^ x / 2 ^ 10

/-- The 64 SHA-256 round constants (decimal). -/
def shaK : List Nat :=
  [1116352408, 1899447441, 3049323471, 3921009573, 961987163, 1508970993,
   2453635748, 2870763221, 3624381080, 310598401, 607225278, 1426881987,
   1925078388, 2162078206, 2614888103, 3248222580, 3835390401, 4022224774,
   264347078, 604807628, 770255983, 1249150122, 1555081692, 1996064986,
   2554220882, 2821834349, 2952996808, 3210313671, 3336571891, 3584528711,
   113926993, 338241895, 666307205, 773529912, 1294757372, 1396182291,
   1695183700, 1986661051, 2177026350, 2456956037, 2730485921, 2820302411,
   3259730800, 3345764771, 3516065817, 3600352804, 4094571909, 275423344,
   430227734, 506948616, 659060556, 883997877, 958139571, 1322822218,
   1537002063, 1747873779, 1955562222, 2024104815, 2227730452, 2361852424,
   2428436474, 2756734187, 3204031479, 3329325298]

/-- The eight working variables. -/
structure Hash8 where
  a : Nat
  b : Nat
  c : Nat
  d : Nat
  e : Nat
  f : Nat
  g : Nat
  h : Nat

/-- The SHA-256 initial hash value (decimal). -/
def shaH0 : Hash8 :=
  ⟨1779033703, 3144134277, 1013904242, 2773480762, 1359893119, 2600822924,
   528734635, 1541459225⟩

/-- Big-endian 8-byte length field of the padding. -/
def lenBytes (n : Nat) : List Nat :=
  [n / 2 ^ 56 % 256, n / 2 ^ 48 % 256, n / 2 ^ 40 % 256, n / 2 ^ 32 % 256,
   n / 2 ^ 24 % 256, n / 2 ^ 16 % 256, n / 2 ^ 8 % 256, n % 256]

/-- SHA-256 padding: 0x80, zeros to 56 mod 64, the bit length. -/
def shaPad (msg : List Nat) : List Nat :=
  msg ++ [0x80] ++ List.replicate ((119 - msg.length % 64) % 64) 0 ++
    lenBytes (8 * msg.length)

/-- Split into 64-byte blocks (fuel equals the byte count). -/
def toBlocksF : Nat → List Nat → List (List Nat)
  | 0, _ => []
  | _ + 1, [] => []
  | fuel + 1, x :: rest =>
      (x :: rest).take 64 :: toBlocksF fuel ((x :: rest).drop 64)

/-- The padded message as 64-byte blocks. -/
def toBlocks (l : List Nat) : List (List Nat) := toBlocksF l.length l

/-- Big-endian 32-bit words of a byte list. -/
def bytesToWords : List Nat → List Nat
  | b0 :: b1 :: b2 :: b3 :: rest =>
      (((b0 * 256 + b1) * 256 + b2) * 256 + b3) :: bytesToWords rest
  | _ => []

/-- Extend the 16-word schedule by `count` further words. -/
def scheduleFrom (w : List Nat) : Nat → List Nat
  | 0 => w
  | count + 1 =>
      let n := w.length
      scheduleFrom
        (w ++ [(ssig1 (w.getD (n - 2) 0) + w.getD (n - 7) 0 +
                ssig0 (w.getD (n - 15) 0) + w.getD (n - 16) 0) % 2 ^ 32])
        count

/-- One compression round. -/
def shaRound (s : Hash8) (kw : Nat × Nat) : Hash8 :=
  let t1 := (s.h + bsig1 s.e + shaCh s.e s.f s.g + kw.1 + kw.2) % 2 ^ 32
  let t2 := (bsig0 s.a + shaMaj s.a s.b s.c) % 2 ^ 32
  ⟨(t1 + t2) % 2 ^ 32, s.a, s.b, s.c, (s.d + t1) % 2 ^ 32, s.e, s.f, s.g⟩

/-- Compress one 64-byte block into the running hash. -/
def processBlock (hs : Hash8) (block : List Nat) : Hash8 :=
  let w := scheduleFrom (bytesToWords block) 48
  let s := (shaK.zip w).foldl shaRound hs
  ⟨(hs.a + s.a) % 2 ^ 32, (hs.b + s.b) % 2 ^ 32, (hs.c + s.c) % 2 ^ 32,
   (hs.d + s.d) % 2 ^ 32, (hs.e + s.e) % 2 ^ 32, (hs.f + s.f) % 2 ^ 32,
   (hs.g + s.g) % 2 ^ 32, (hs.h + s.h) % 2 ^ 32⟩

/-- Eight hex digits of a 32-bit word. -/
def wordToHex (n : Nat) : String :=
  String.mk
    [hexDigitChar (n / 16 ^ 7 % 16), hexDigitChar (n / 16 ^ 6 % 16),
     hexDigitChar (n / 16 ^ 5 % 16), hexDigitChar (n / 16 ^ 4 % 16),
     hexDigitChar (n / 16 ^ 3 % 16), hexDigitChar (n / 16 ^ 2 % 16),
     hexDigitChar (n / 16 % 16), hexDigitChar (n % 16)]

/-- hashlib.sha256(s.encode("utf-8")).hexdigest(). -/
def sha256hex (s : String) : String :=
  let hs := (toBlocks (shaPad (utf8Bytes s))).foldl processBlock shaH0
  wordToHex hs.a ++ wordToHex hs.b ++ wordToHex hs.c ++ wordToHex hs.d ++
    wordToHex hs.e ++ wordToHex hs.f ++ wordToHex hs.g ++ wordToHex hs.h

example :
    sha256hex "abc" =
      "ba7816bf8f01cfea414140de5dae2223b00361a396177a9cb410ff61f20015ad" := by
  rfl

/-
Embedding of the Mind-KB playbook store
(store_mind_playbook, summarize_history_for_mind_kb in memory_service.py).
A history_sequence item is a str-to-str dict (the pydantic request type is
list[dict[str, str]], so the isinstance(item, dict) guard of the source is
always true and str() over the fetched values is the identity).
-/

/-- Python dict.get with a default on a str-to-str dict. -/
def pyDictGetD : List (String × String) → String → String → String
  | [], _, dflt => dflt
  | (k, v) :: rest, key, dflt =>
      if k = key then v else pyDictGetD rest key dflt

/-- The numbered step lines: an item with empty or whitespace-only content
is skipped without consuming a step number; the role is trimmed, defaulted
to unknown, tool is normalized to tool_result, and the three known roles
map to their labels while any other role string is used verbatim. -/
def playbookSteps : List (List (String × String)) → Nat → List String
  | [], _ => []
  | item :: rest, step =>
      let role0 := pyStrip (pyDictGetD item "role" "")
      let role1 := if role0 = "" then "unknown" else role0
      let content := pyStrip (pyDictGetD item "content" "")
      if content = "" then playbookSteps rest step
      else
        let role2 := if role1 = "tool" then "tool_result" else role1
        let label :=
          if role2 = "user" then "User prompt"
          else if role2 = "assistant" then "Planner/Assistant"
          else if role2 = "tool_result" then "Tool returned"
          else role2
        (toString step ++ ") " ++ label ++ ": " ++ content) ::
          playbookSteps rest (step + 1)

/-- summarize_history_for_mind_kb: the deterministic dense text rendering. -/
def summarize_history_for_mind_kb (prompt : String)
    (history_sequence : List (List (String × String))) : String :=
  String.intercalate "\n"
    (["Playbook for: " ++ prompt, "---", "Steps:"] ++
      playbookSteps history_sequence 1)

/-- A document of the Mind-KB Chroma collection, with the metadata
store_mind_playbook writes. -/
structure KBDoc where
  text : String
  source_session : String
  original_prompt : String
  kind : String

/-- The Mind-KB collection: documents keyed by id in insertion order. -/
def KBState : Type := List (String × KBDoc)

/-- Chroma upsert: overwrite the document at an existing id in place, else
append.  (The add-with-collision-as-no-op fallback of the source for older
clients coincides with upsert on an existing id up to the overwrite, and no
claim distinguishes them; the hasattr branch taken with the pinned client is
upsert.) -/
def chromaUpsert : KBState → String → KBDoc → KBState
  | [], id, doc => [(id, doc)]
  | (k, d) :: rest, id, doc =>
      if k = id then (id, doc) :: rest else (k, d) :: chromaUpsert rest id doc

/-- store_mind_playbook: render the playbook text, hash it into the stable
id, upsert the document with its metadata, return the id. -/
def store_mind_playbook (st : KBState) (session_id prompt : String)
    (history_sequence : List (List (String × String))) : KBState × String :=
  let playbook_text := summarize_history_for_mind_kb prompt history_sequence
  let playbook_id := sha256hex playbook_text
  (chromaUpsert st playbook_id
    { text := playbook_text, source_session := session_id,
      original_prompt := prompt, kind := "playbook" },
   playbook_id)

/-- Number of documents stored under an id. -/
def countId : KBState → String → Nat
  | [], _ => 0
  | (k, _) :: rest, id => (if k = id then 1 else 0) + countId rest id

example :
    summarize_history_for_mind_kb "p"
      [[("role", "user"), ("content", "hi")], [("role", "x"), ("content", " ")],
       [("role", "tool"), ("content", "out")]] =
    "Playbook for: p\n---\nSteps:\n1) User prompt: hi\n2) Tool returned: out" := by
  rfl

/-- A payload whose format-1 shape the spec acceptor takes is parsed to that
shape's result (format 1 tried first). -/
theorem parse_tool_call_format1 (s : String) (d : Json)
    (r : String × List (String × Json))
    (hp : jsonParse s = some d) (hf : specToolShape "tool" "args" d = some r) :
    parse_tool_call s = some r := by
  have hs : ¬ s = "" := by
    intro h
    subst h
    exact Option.noConfusion hp
  obtain ⟨fields, rfl⟩ : ∃ fs, d = Json.obj fs := by
    cases d
    case obj fs => exact ⟨fs, rfl⟩
    all_goals simp [specToolShape, Json.get] at hf
  unfold parse_tool_call
  rw [if_neg hs, hp]
  simp only [Json.isObj, if_true]
  rw [toolFormat1_eq_spec, hf]

/-- A payload whose format-1 shape is rejected but whose format-2 shape the
spec acceptor takes is parsed to the format-2 result. -/
theorem parse_tool_call_format2 (s : String) (d : Json)
    (r : String × List (String × Json))
    (hp : jsonParse s = some d) (h1 : specToolShape "tool" "args" d = none)
    (h2 : specToolShape "tool_call" "arguments" d = some r) :
    parse_tool_call s = some r := by
  have hs : ¬ s = "" := by
    intro h
    subst h
    exact Option.noConfusion hp
  obtain ⟨fields, rfl⟩ : ∃ fs, d = Json.obj fs := by
    cases d
    case obj fs => exact ⟨fs, rfl⟩
    all_goals simp [specToolShape, Json.get] at h2
  unfold parse_tool_call
  rw [if_neg hs, hp]
  simp only [Json.isObj, if_true]
  rw [toolFormat1_eq_spec, h1, toolFormat2_eq_spec, h2]

/-- C3: parse_tool_call tries format 1 before format 2 and returns the
trimmed name with the args mapping (empty when absent or null) of the first
fully-valid shape: a well-formed format-1 payload yields its name and args,
any payload whose format-1 shape is accepted by the spec's shape-1 acceptor
yields that result, and when format 1 is malformed a fully-valid format-2
shape on the same root object wins. -/
theorem C3_parse_priority :
    parse_tool_call
        "\x7b\"tool\":\x7b\"name\":\"n\",\"args\":\x7b\"a\":1\x7d\x7d\x7d" =
      some ("n", [("a", Json.num 1 0)]) ∧
    (∀ (s : String) (d : Json) (r : String × List (String × Json)),
      jsonParse s = some d → specToolShape "tool" "args" d = some r →
      parse_tool_call s = some r) ∧
    (∀ (s : String) (d : Json) (r : String × List (String × Json)),
      jsonParse s = some d → specToolShape "tool" "args" d = none →
      specToolShape "tool_call" "arguments" d = some r →
      parse_tool_call s = some r) :=
  ⟨rfl, parse_tool_call_format1, parse_tool_call_format2⟩

/-- C3 witness: a concrete malformed-format-1 payload (blank name) whose
format-2 shape wins, through the theorem's third conjunct. -/
theorem C3_parse_priority_witness :
    parse_tool_call
        "\x7b\"tool\":\x7b\"name\":\"  \"\x7d,\"tool_call\":\x7b\"name\":\" m \",\"arguments\":null\x7d\x7d" =
      some ("m", []) :=
  C3_parse_priority.2.2 _
    (Json.obj [("tool", Json.obj [("name", Json.str "  ")]),
      ("tool_call", Json.obj [("name", Json.str " m "), ("arguments", Json.null)])])
    ("m", []) (by rfl) (by rfl) (by rfl)

/-- An input that json.loads rejects parses to no tool call. -/
theorem parse_tool_call_bad_json (s : String) (h : jsonParse s = none) :
    parse_tool_call s = none := by
  unfold parse_tool_call
  by_cases hs : s = ""
  · rw [if_pos hs]
  · rw [if_neg hs, h]

/-- An input that parses to a non-dict parses to no tool call. -/
theorem parse_tool_call_non_object (s : String) (d : Json)
    (hp : jsonParse s = some d) (hd : d.isObj = false) :
    parse_tool_call s = none := by
  have hs : ¬ s = "" := by
    intro h
    subst h
    exact Option.noConfusion hp
  unfold parse_tool_call
  rw [if_neg hs, hp]
  simp [hd]

/-- An input with no fully-valid shape parses to no tool call. -/
theorem parse_tool_call_no_shape (s : String) (d : Json)
    (hp : jsonParse s = some d) (h1 : specToolShape "tool" "args" d = none)
    (h2 : specToolShape "tool_call" "arguments" d = none) :
    parse_tool_call s = none := by
  have hs : ¬ s = "" := by
    intro h
    subst h
    exact Option.noConfusion hp
  unfold parse_tool_call
  rw [if_neg hs, hp]
  by_cases hobj : d.isObj
  · simp only [hobj, if_true]
    rw [toolFormat1_eq_spec, h1, toolFormat2_eq_spec, h2]
  · simp [hobj]

/-- C4: parse_tool_call is total and never raises: the four canonical bad
inputs of the spec return none, and in general any input rejected by
json.loads, parsing to a non-dict, or containing no fully-valid tool shape
returns none. -/
theorem C4_parse_total :
    parse_tool_call "" = none ∧
    parse_tool_call "not json" = none ∧
    parse_tool_call "[]" = none ∧
    parse_tool_call "\x7b\"tool\":\x7b\x7d\x7d" = none ∧
    (∀ s : String, jsonParse s = none → parse_tool_call s = none) ∧
    (∀ (s : String) (d : Json), jsonParse s = some d → d.isObj = false →
      parse_tool_call s = none) ∧
    (∀ (s : String) (d : Json), jsonParse s = some d →
      specToolShape "tool" "args" d = none →
      specToolShape "tool_call" "arguments" d = none →
      parse_tool_call s = none) :=
  ⟨rfl, rfl, rfl, rfl, parse_tool_call_bad_json, parse_tool_call_non_object,
    parse_tool_call_no_shape⟩

/-- C4 witness: the universally quantified conjuncts applied at concrete
inputs. -/
theorem C4_parse_total_witness :
    parse_tool_call "\x7b\x7b" = none ∧ parse_tool_call "true" = none ∧
    parse_tool_call "\x7b\"tool\":\x7b\"name\":\"\"\x7d\x7d" = none :=
  ⟨C4_parse_total.2.2.2.2.1 "\x7b\x7b" (by rfl),
   C4_parse_total.2.2.2.2.2.1 "true" (Json.bool true) (by rfl) (by rfl),
   C4_parse_total.2.2.2.2.2.2 "\x7b\"tool\":\x7b\"name\":\"\"\x7d\x7d"
     (Json.obj [("tool", Json.obj [("name", Json.str "")])])
     (by rfl) (by rfl) (by rfl)⟩

/-- C10: for a session id whose stored record holds a history value that is
not valid JSON or parses to a non-list, get_session_history returns the
empty list without raising and leaves the stored record untouched (the row
is neither modified nor re-initialized). -/
theorem C10_get_history_bad_record (db : SessionsDb) (sid raw : String)
    (hrow : lookupSession db.rows sid = some raw)
    (hbad : jsonParse raw = none ∨
      ∃ v : Json, jsonParse raw = some v ∧ v.isArr = false) :
    get_session_history db sid = (db, []) := by
  unfold get_session_history
  rcases hbad with hnone | ⟨v, hv, hva⟩
  · simp only [hrow, hnone]
  · simp only [hrow, hv]
    cases v
    case arr l => simp [Json.isArr] at hva
    all_goals rfl

/-- C10 witness: a record holding non-JSON text, and one holding a JSON
dict, both read back as the empty history with the store unchanged. -/
theorem C10_get_history_bad_record_witness :
    get_session_history ⟨[("s", "not json")]⟩ "s" = (⟨[("s", "not json")]⟩, []) ∧
    get_session_history ⟨[("s", "\x7b\x7d")]⟩ "s" = (⟨[("s", "\x7b\x7d")]⟩, []) :=
  ⟨C10_get_history_bad_record _ "s" "not json" (by rfl) (Or.inl (by rfl)),
   C10_get_history_bad_record _ "s" "\x7b\x7d" (by rfl)
     (Or.inr ⟨Json.obj [], by rfl, by rfl⟩)⟩

/-- A stored session row for the C2 counterexample. -/
def c2Db : SessionsDb := ⟨[("s1", "[\"old\"]")]⟩

/-- A store request submitting a different one-turn transcript for the same
session id. -/
def c2Payload : StoreHistoryPayload :=
  { session_id := "s1", history := [Json.str "new"], prompt := "p",
    llm_response := Json.obj [], stored_at := none }

/-- C2 counterexample: the write endpoint does not replace (or write) any
record: after the call the durable record for the session id still holds
the old serialized transcript, not the serialization of the submitted one,
though the response is the documented {status, sessionID, turns} shape. -/
theorem C2_store_counterexample :
    (store_memory c2Db c2Payload).2 =
      { status := "ok", session_id := "s1", turns := 1 } ∧
    (store_memory c2Db c2Payload).1 = c2Db ∧
    lookupSession (store_memory c2Db c2Payload).1.rows "s1" = some "[\"old\"]" ∧
    some "[\"old\"]" ≠ some (jsonDumps (Json.arr c2Payload.history)) := by
  refine ⟨rfl, rfl, rfl, ?_⟩
  intro h
  have : "[\"old\"]" = "[\"new\"]" := by
    have := Option.some.inj h
    rw [this]
    rfl
  exact absurd this (by decide)

/-- C2 amended: every call to the session write endpoint returns
{status: ok, sessionID, turns = length of the submitted history} but writes
nothing durable: the sessions store and every record in it are unchanged
(persistence is simulated by logging only). -/
theorem C2_store_amended (db : SessionsDb) (payload : StoreHistoryPayload) :
    (store_memory db payload).2.status = "ok" ∧
    (store_memory db payload).2.session_id = payload.session_id ∧
    (store_memory db payload).2.turns = payload.history.length ∧
    (store_memory db payload).1 = db ∧
    ∀ sid : String,
      lookupSession (store_memory db payload).1.rows sid =
        lookupSession db.rows sid :=
  ⟨rfl, rfl, rfl, rfl, fun _ => rfl⟩

/-- The matches one base contributes: the loop body of rag_retrieve for one
knowledge base name. -/
def ragBaseMatches {D : Type} (backend : String → String → Int → QueryRes D)
    (kb query : String) (n : Int) : List (RagMatch D) :=
  buildMatches (firstRow (backend kb query n).ids)
    (firstRow (backend kb query n).documents)
    (firstRow (backend kb query n).distances) kb

/-- buildMatches never yields more matches than there are ids. -/
theorem buildMatches_length_le {D : Type} :
    ∀ (ids docs : List String) (dists : List D) (kb : String),
      (buildMatches ids docs dists kb).length ≤ ids.length := by
  intro ids
  induction ids with
  | nil => intro docs dists kb; cases docs <;> cases dists <;> simp [buildMatches]
  | cons i is ih =>
      intro docs dists kb
      cases docs with
      | nil => simp [buildMatches]
      | cons d ds =>
          cases dists with
          | nil => simp [buildMatches]
          | cons t ts =>
              simp only [buildMatches, List.length_cons]
              exact Nat.succ_le_succ (ih ds ts kb)

/-- Every match buildMatches yields is tagged with the given base. -/
theorem buildMatches_kb {D : Type} :
    ∀ (ids docs : List String) (dists : List D) (kb : String),
      ∀ m ∈ buildMatches ids docs dists kb, m.knowledge_base = kb := by
  intro ids
  induction ids with
  | nil => intro docs dists kb m hm; cases docs <;> cases dists <;> simp [buildMatches] at hm
  | cons i is ih =>
      intro docs dists kb m hm
      cases docs with
      | nil => simp [buildMatches] at hm
      | cons d ds =>
          cases dists with
          | nil => simp [buildMatches] at hm
          | cons t ts =>
              simp only [buildMatches, List.mem_cons] at hm
              rcases hm with rfl | hm
              · rfl
              · exact ih ds ts kb m hm

/-- C7: querying knowledge bases ["A", "B"] returns the per-base lists
concatenated in base order with no interleaving (the result is exactly the
A-list followed by the B-list), each at most topK long (topK coerced to at
least 1) whenever the backend honors n_results, each tagged with its own
base. -/
theorem C7_rag_merge_order {D : Type}
    (backend : String → String → Int → QueryRes D) (q : String) (k : Int)
    (hA : ((firstRow (backend "A" q (if k ≤ 0 then 1 else k)).ids).length : Int) ≤
      (if k ≤ 0 then 1 else k))
    (hB : ((firstRow (backend "B" q (if k ≤ 0 then 1 else k)).ids).length : Int) ≤
      (if k ≤ 0 then 1 else k)) :
    1 ≤ (if k ≤ 0 then 1 else k) ∧
    rag_retrieve backend q (some ["A", "B"]) k =
      ragBaseMatches backend "A" q (if k ≤ 0 then 1 else k) ++
        ragBaseMatches backend "B" q (if k ≤ 0 then 1 else k) ∧
    ((ragBaseMatches backend "A" q (if k ≤ 0 then 1 else k)).length : Int) ≤
      (if k ≤ 0 then 1 else k) ∧
    ((ragBaseMatches backend "B" q (if k ≤ 0 then 1 else k)).length : Int) ≤
      (if k ≤ 0 then 1 else k) ∧
    (∀ m ∈ ragBaseMatches backend "A" q (if k ≤ 0 then 1 else k),
      m.knowledge_base = "A") ∧
    (∀ m ∈ ragBaseMatches backend "B" q (if k ≤ 0 then 1 else k),
      m.knowledge_base = "B") := by
  refine ⟨?_, ?_, ?_, ?_, ?_, ?_⟩
  · by_cases h : k ≤ 0 <;> simp [h] <;> omega
  · simp [rag_retrieve, ragBaseMatches]
  · calc ((ragBaseMatches backend "A" q (if k ≤ 0 then 1 else k)).length : Int) ≤
        ((firstRow (backend "A" q (if k ≤ 0 then 1 else k)).ids).length : Int) := by
          exact_mod_cast buildMatches_length_le _ _ _ _
      _ ≤ (if k ≤ 0 then 1 else k) := hA
  · calc ((ragBaseMatches backend "B" q (if k ≤ 0 then 1 else k)).length : Int) ≤
        ((firstRow (backend "B" q (if k ≤ 0 then 1 else k)).ids).length : Int) := by
          exact_mod_cast buildMatches_length_le _ _ _ _
      _ ≤ (if k ≤ 0 then 1 else k) := hB
  · exact buildMatches_kb _ _ _ _
  · exact buildMatches_kb _ _ _ _

/-- C7 witness: a two-base backend with one hit per base and topK 2. -/
theorem C7_rag_merge_order_witness :
    rag_retrieve
        (fun kb _ _ =>
          { ids := some [[kb ++ "1"]], documents := some [["doc-" ++ kb]],
            distances := some [[(0 : Int)]] })
        "query" (some ["A", "B"]) 2 =
      ragBaseMatches
          (fun kb _ _ =>
            { ids := some [[kb ++ "1"]], documents := some [["doc-" ++ kb]],
              distances := some [[(0 : Int)]] }) "A" "query"
          (if (2 : Int) ≤ 0 then 1 else 2) ++
        ragBaseMatches
          (fun kb _ _ =>
            { ids := some [[kb ++ "1"]], documents := some [["doc-" ++ kb]],
              distances := some [[(0 : Int)]] }) "B" "query"
          (if (2 : Int) ≤ 0 then 1 else 2) :=
  (C7_rag_merge_order
    (fun kb _ _ =>
      { ids := some [[kb ++ "1"]], documents := some [["doc-" ++ kb]],
        distances := some [[(0 : Int)]] })
    "query" 2 (by decide) (by decide)).2.1

/-- Upserting the same id and document twice equals upserting it once. -/
theorem chromaUpsert_idem (st : KBState) (id : String) (doc : KBDoc) :
    chromaUpsert (chromaUpsert st id doc) id doc = chromaUpsert st id doc := by
  induction st with
  | nil => simp [chromaUpsert]
  | cons kv rest ih =>
      obtain ⟨k, d⟩ := kv
      by_cases h : k = id
      · simp [chromaUpsert, h]
      · simp [chromaUpsert, h, ih]

/-- After an upsert into a store holding at most one document under the id,
exactly one document is stored under it. -/
theorem countId_upsert (st : KBState) (id : String) (doc : KBDoc)
    (h : countId st id ≤ 1) : countId (chromaUpsert st id doc) id = 1 := by
  induction st with
  | nil => simp [chromaUpsert, countId]
  | cons kv rest ih =>
      obtain ⟨k, d⟩ := kv
      by_cases hk : k = id
      · subst hk
        have h0 : countId rest k = 0 := by
          simp [countId] at h
          omega
        simp [chromaUpsert, countId, h0]
      · have h' : countId rest id ≤ 1 := by
          simp [countId, hk] at h
          omega
        simp [chromaUpsert, countId, hk, ih h']

/-- C8: store_mind_playbook is content-addressed and idempotent: the
returned id is the digest of the deterministically rendered text, two calls
with byte-identical prompt and history return the same id, the second call
leaves the collection exactly as the first left it, and exactly one document
is stored under the id after either call (given the collection did not
already hold the id twice, which insertion cannot produce). -/
theorem C8_playbook_idempotent (st : KBState) (session_id prompt : String)
    (history_sequence : List (List (String × String)))
    (hdup : countId st
      (sha256hex (summarize_history_for_mind_kb prompt history_sequence)) ≤ 1) :
    (store_mind_playbook st session_id prompt history_sequence).2 =
      sha256hex (summarize_history_for_mind_kb prompt history_sequence) ∧
    (store_mind_playbook st session_id prompt history_sequence).2 =
      (store_mind_playbook
        (store_mind_playbook st session_id prompt history_sequence).1
        session_id prompt history_sequence).2 ∧
    (store_mind_playbook
        (store_mind_playbook st session_id prompt history_sequence).1
        session_id prompt history_sequence).1 =
      (store_mind_playbook st session_id prompt history_sequence).1 ∧
    countId (store_mind_playbook st session_id prompt history_sequence).1
      (store_mind_playbook st session_id prompt history_sequence).2 = 1 ∧
    countId
      (store_mind_playbook
        (store_mind_playbook st session_id prompt history_sequence).1
        session_id prompt history_sequence).1
      (store_mind_playbook st session_id prompt history_sequence).2 = 1 := by
  refine ⟨rfl, rfl, ?_, ?_, ?_⟩
  · exact chromaUpsert_idem st _ _
  · exact countId_upsert st _ _ hdup
  · show countId (chromaUpsert (chromaUpsert st _ _) _ _) _ = 1
    rw [chromaUpsert_idem st _ _]
    exact countId_upsert st _ _ hdup

/-- C8 witness: storing the same playbook twice into the empty Mind-KB. -/
theorem C8_playbook_idempotent_witness :
    (store_mind_playbook [] "s1" "p" [[("role", "user"), ("content", "hi")]]).2 =
      sha256hex (summarize_history_for_mind_kb "p"
        [[("role", "user"), ("content", "hi")]]) ∧
    (store_mind_playbook [] "s1" "p" [[("role", "user"), ("content", "hi")]]).2 =
      (store_mind_playbook
        (store_mind_playbook [] "s1" "p" [[("role", "user"), ("content", "hi")]]).1
        "s1" "p" [[("role", "user"), ("content", "hi")]]).2 ∧
    (store_mind_playbook
        (store_mind_playbook [] "s1" "p" [[("role", "user"), ("content", "hi")]]).1
        "s1" "p" [[("role", "user"), ("content", "hi")]]).1 =
      (store_mind_playbook [] "s1" "p" [[("role", "user"), ("content", "hi")]]).1 ∧
    countId (store_mind_playbook [] "s1" "p"
        [[("role", "user"), ("content", "hi")]]).1
      (store_mind_playbook [] "s1" "p" [[("role", "user"), ("content", "hi")]]).2 = 1 ∧
    countId
      (store_mind_playbook
        (store_mind_playbook [] "s1" "p" [[("role", "user"), ("content", "hi")]]).1
        "s1" "p" [[("role", "user"), ("content", "hi")]]).1
      (store_mind_playbook [] "s1" "p" [[("role", "user"), ("content", "hi")]]).2 = 1 :=
  C8_playbook_idempotent [] "s1" "p" [[("role", "user"), ("content", "hi")]]
    (Nat.zero_le 1)

/-- Each loop iteration performs exactly one plan-source call, so the loop
performs at most as many calls as it has iterations left. -/
theorem runFrom_planCalls_le (env : AgentEnv) :
    ∀ (r turn : Nat) (st : RunState),
      (runFrom env turn r st).planCalls ≤ st.planCalls + r := by
  intro r
  induction r with
  | zero => intro turn st; simp [runFrom]
  | succ r ih =>
      intro turn st
      simp only [runFrom]
      split
      · simp
      · split
        · simp
        · refine le_trans (ih _ _) ?_
          simp
          omega

/-- C5: a run constructed with maxTurns = N invokes the plan-source
collaborator at most N times, whatever the plan payloads and tool calls
are (planCalls counts exactly the plan-source invocations of the run). -/
theorem C5_max_turns_bounds_plan_calls (env : AgentEnv) :
    run_agentPlanCalls env ≤ env.max_turns := by
  have h := runFrom_planCalls_le env env.max_turns 0 ⟨[], .initEmpty, env.prompt, 0⟩
  simpa [run_agentPlanCalls, run_agentState] using h

/-- Whether a plan-source outcome is a raise (either except arm). -/
def PlanOutcome.isRaise : PlanOutcome → Bool
  | .ok _ => false
  | .grpcRaise _ _ => true
  | .excRaise _ _ => true

/-- C6: when the plan-source call raises at the transport level on the turn
the loop is executing, the loop does not propagate it: the structured error
dict becomes that turn's plan result, exactly the one PlanTurn is appended,
and the loop terminates at the no-tool-call branch (the error payload holds
no plan, so its parse yields no tool call); at top level the run still
returns its result object, with the single error PlanTurn as the whole
transcript. -/
theorem C6_transport_failure :
    (∀ (env : AgentEnv) (turn r : Nat) (st : RunState),
      (env.planSource turn (promptAt env turn st)).isRaise = true →
      runFrom env turn (r + 1) st =
        { history := st.history ++ [Entry.llmPlan turn (promptAt env turn st)
            (interpretPlanCall (env.planSource turn (promptAt env turn st)))]
          llm_response :=
            interpretPlanCall (env.planSource turn (promptAt env turn st))
          current_prompt := promptAt env turn st
          planCalls := st.planCalls + 1 }) ∧
    (∀ (env : AgentEnv) (r : Nat),
      env.max_turns = r + 1 →
      (env.planSource 0 (promptAt env 0 ⟨[], .initEmpty, env.prompt, 0⟩)).isRaise =
        true →
      (run_agent env).history =
        [Entry.llmPlan 0 (promptAt env 0 ⟨[], .initEmpty, env.prompt, 0⟩)
          (interpretPlanCall
            (env.planSource 0 (promptAt env 0 ⟨[], .initEmpty, env.prompt, 0⟩)))] ∧
      (run_agent env).turns_executed = 1 ∧
      (run_agent env).llm_response =
        interpretPlanCall
          (env.planSource 0 (promptAt env 0 ⟨[], .initEmpty, env.prompt, 0⟩))) := by
  have step : ∀ (env : AgentEnv) (turn r : Nat) (st : RunState),
      (env.planSource turn (promptAt env turn st)).isRaise = true →
      runFrom env turn (r + 1) st =
        { history := st.history ++ [Entry.llmPlan turn (promptAt env turn st)
            (interpretPlanCall (env.planSource turn (promptAt env turn st)))]
          llm_response :=
            interpretPlanCall (env.planSource turn (promptAt env turn st))
          current_prompt := promptAt env turn st
          planCalls := st.planCalls + 1 } := by
    intro env turn r st h
    cases ho : env.planSource turn (promptAt env turn st) with
    | ok p => rw [ho] at h; simp [PlanOutcome.isRaise] at h
    | grpcRaise c d => simp only [runFrom, ho]; rfl
    | excRaise n d => simp only [runFrom, ho]; rfl
  refine ⟨step, ?_⟩
  intro env r hmax h
  have h1 : run_agentState env =
      { history := [Entry.llmPlan 0 (promptAt env 0 ⟨[], .initEmpty, env.prompt, 0⟩)
          (interpretPlanCall
            (env.planSource 0 (promptAt env 0 ⟨[], .initEmpty, env.prompt, 0⟩)))]
        llm_response :=
          interpretPlanCall
            (env.planSource 0 (promptAt env 0 ⟨[], .initEmpty, env.prompt, 0⟩))
        current_prompt := promptAt env 0 ⟨[], .initEmpty, env.prompt, 0⟩
        planCalls := 1 } := by
    unfold run_agentState
    rw [hmax]
    exact step env 0 r ⟨[], .initEmpty, env.prompt, 0⟩ h
  refine ⟨?_, ?_, ?_⟩
  · show (run_agentState env).history = _
    rw [h1]
  · show (run_agentState env).history.length = 1
    rw [h1]
    rfl
  · show (run_agentState env).llm_response = _
    rw [h1]

/-- A loop whose plan source always raises a transport error. -/
def c6Env : AgentEnv :=
  { prompt := "p", session_id := none, request_id := none, max_turns := 3,
    getHistory := fun _ => [],
    planSource := fun _ _ => .grpcRaise "UNAVAILABLE" "connect failed",
    tool_executor := none }

/-- C6 witness: the run of c6Env returns its result object with the single
error PlanTurn as the whole transcript. -/
theorem C6_transport_failure_witness :
    (run_agent c6Env).history =
      [Entry.llmPlan 0 (promptAt c6Env 0 ⟨[], .initEmpty, c6Env.prompt, 0⟩)
        (interpretPlanCall (c6Env.planSource 0
          (promptAt c6Env 0 ⟨[], .initEmpty, c6Env.prompt, 0⟩)))] ∧
    (run_agent c6Env).turns_executed = 1 ∧
    (run_agent c6Env).llm_response =
      interpretPlanCall (c6Env.planSource 0
        (promptAt c6Env 0 ⟨[], .initEmpty, c6Env.prompt, 0⟩)) :=
  C6_transport_failure.2 c6Env 2 rfl rfl

/-- The working prompt can evolve from p to q only by appending delimited
tool_response blocks. -/
inductive GrowsByBlocks : String → String → Prop where
  | refl (p : String) : GrowsByBlocks p p
  | step (p q tool_name body : String) :
      GrowsByBlocks p q →
      GrowsByBlocks p (q ++ toolResponseBlock tool_name body)

/-- GrowsByBlocks is transitive. -/
theorem GrowsByBlocks.trans {p q s : String}
    (h1 : GrowsByBlocks p q) (h2 : GrowsByBlocks q s) : GrowsByBlocks p s := by
  induction h2 with
  | refl => exact h1
  | step _ tool_name body _ ih => exact GrowsByBlocks.step _ _ tool_name body ih

/-- From any turn after 0, the loop only ever appends tool-response blocks
to the working prompt. -/
theorem runFrom_grows (env : AgentEnv) :
    ∀ (r turn : Nat) (st : RunState), 1 ≤ turn →
      GrowsByBlocks st.current_prompt (runFrom env turn r st).current_prompt := by
  intro r
  induction r with
  | zero => intro turn st _; exact GrowsByBlocks.refl _
  | succ r ih =>
      intro turn st ht
      have hne : turn ≠ 0 := by omega
      simp only [runFrom, promptAt, hne, if_false]
      cases hp : parse_tool_call
          (interpretPlanCall (env.planSource turn st.current_prompt)).planDefault with
      | none => exact GrowsByBlocks.refl _
      | some tc =>
          obtain ⟨tool_name, args⟩ := tc
          cases hex : env.tool_executor with
          | none => exact GrowsByBlocks.refl _
          | some ex =>
              dsimp only
              exact GrowsByBlocks.trans
                (GrowsByBlocks.step _ _ tool_name (jsonDumps (ex tool_name args))
                  (GrowsByBlocks.refl _))
                (ih (turn + 1)
                  { history := st.history ++
                      [Entry.llmPlan turn st.current_prompt
                        (interpretPlanCall (env.planSource turn st.current_prompt))] ++
                      [Entry.toolResult turn tool_name args (ex tool_name args)]
                    llm_response :=
                      interpretPlanCall (env.planSource turn st.current_prompt)
                    current_prompt := st.current_prompt ++
                      toolResponseBlock tool_name (jsonDumps (ex tool_name args))
                    planCalls := st.planCalls + 1 } (by omega))

/-- Starting the loop at turn 0, the working prompt is the history-augmented
prompt plus tool-response blocks only. -/
theorem runFrom_grows_from_zero (env : AgentEnv) (r : Nat) (st : RunState) :
    GrowsByBlocks (historyPreamble env ++ env.prompt)
      (runFrom env 0 (r + 1) st).current_prompt := by
  simp only [runFrom, promptAt, if_pos]
  cases hp : parse_tool_call
      (interpretPlanCall
        (env.planSource 0 (historyPreamble env ++ env.prompt))).planDefault with
  | none => exact GrowsByBlocks.refl _
  | some tc =>
      obtain ⟨tool_name, args⟩ := tc
      cases hex : env.tool_executor with
      | none => exact GrowsByBlocks.refl _
      | some ex =>
          dsimp only
          exact GrowsByBlocks.trans
            (GrowsByBlocks.step _ _ tool_name (jsonDumps (ex tool_name args))
              (GrowsByBlocks.refl _))
            (runFrom_grows env r 1
              { history := st.history ++
                  [Entry.llmPlan 0 (historyPreamble env ++ env.prompt)
                    (interpretPlanCall
                      (env.planSource 0 (historyPreamble env ++ env.prompt)))] ++
                  [Entry.toolResult 0 tool_name args (ex tool_name args)]
                llm_response :=
                  interpretPlanCall
                    (env.planSource 0 (historyPreamble env ++ env.prompt))
                current_prompt := historyPreamble env ++ env.prompt ++
                  toolResponseBlock tool_name (jsonDumps (ex tool_name args))
                planCalls := st.planCalls + 1 } (by omega))

/-- C9: the prompt is augmented with the rendered history block on turn 0
only; on every later turn the working prompt grows only by appended
tool-response blocks (both from any turn at least 1 and over the whole run
from the turn-0 augmented prompt), and the original user prompt is never
mutated: the returned result still reports it. -/
theorem C9_prompt_augmentation :
    (∀ (env : AgentEnv) (st : RunState),
      promptAt env 0 st = historyPreamble env ++ env.prompt) ∧
    (∀ (env : AgentEnv) (turn : Nat) (st : RunState), turn ≠ 0 →
      promptAt env turn st = st.current_prompt) ∧
    (∀ (env : AgentEnv) (r turn : Nat) (st : RunState), 1 ≤ turn →
      GrowsByBlocks st.current_prompt (runFrom env turn r st).current_prompt) ∧
    (∀ (env : AgentEnv) (r : Nat), env.max_turns = r + 1 →
      GrowsByBlocks (historyPreamble env ++ env.prompt)
        (run_agentState env).current_prompt) ∧
    (∀ env : AgentEnv, (run_agent env).prompt = env.prompt) := by
  refine ⟨fun env st => rfl, ?_, runFrom_grows, ?_, fun env => rfl⟩
  · intro env turn st h
    simp [promptAt, h]
  · intro env r hmax
    unfold run_agentState
    rw [hmax]
    exact runFrom_grows_from_zero env r _

/-- C9 witness: the three quantified parts with hypotheses, applied to a
concrete loop and state. -/
theorem C9_prompt_augmentation_witness :
    promptAt c6Env 1 ⟨[], .initEmpty, "x", 0⟩ = "x" ∧
    GrowsByBlocks "x" (runFrom c6Env 1 2 ⟨[], .initEmpty, "x", 0⟩).current_prompt ∧
    GrowsByBlocks (historyPreamble c6Env ++ c6Env.prompt)
      (run_agentState c6Env).current_prompt :=
  ⟨C9_prompt_augmentation.2.1 c6Env 1 ⟨[], .initEmpty, "x", 0⟩ (by decide),
   C9_prompt_augmentation.2.2.1 c6Env 2 1 ⟨[], .initEmpty, "x", 0⟩ (by decide),
   C9_prompt_augmentation.2.2.2.1 c6Env 2 rfl⟩

/-- A loop with no tool executor whose plan source always requests tool t
with empty args. -/
def c1Env : AgentEnv :=
  { prompt := "do it", session_id := some "s1", request_id := none,
    max_turns := 3, getHistory := fun _ => [],
    planSource := fun _ _ =>
      .ok (some "\x7b\"tool\":\x7b\"name\":\"t\",\"args\":\x7b\x7d\x7d\x7d"),
    tool_executor := none }

/-- C1 counterexample: in the no-executor scenario the run terminates after
that turn with the error ToolResultTurn last, but turns_executed is 2, not
1: the source reports len(history), which counts the PlanTurn and the
ToolResultTurn of the single executed turn. -/
theorem C1_no_executor_counterexample :
    (run_agent c1Env).turns_executed = 2 ∧
    (run_agent c1Env).history.getLast? =
      some (Entry.toolResult 0 "t" [] noToolExecutorResult) ∧
    (run_agent c1Env).turns_executed ≠ 1 := by
  refine ⟨rfl, rfl, ?_⟩
  intro h
  have h2 : (2 : Nat) = 1 := by
    calc (2 : Nat) = (run_agent c1Env).turns_executed := by rfl
    _ = 1 := h
  exact absurd h2 (by decide)

/-- C1 amended: without a tool executor, when the turn-0 plan requests a
tool the run terminates after that turn, the transcript is exactly the
PlanTurn followed by the ToolResultTurn carrying the structured no-executor
error, and turnsExecuted (the transcript length) is 2. -/
theorem C1_no_executor_amended (env : AgentEnv) (r : Nat) (tool_name : String)
    (args : List (String × Json))
    (hexec : env.tool_executor = none)
    (hmax : env.max_turns = r + 1)
    (hplan : parse_tool_call
      (interpretPlanCall (env.planSource 0
        (promptAt env 0 ⟨[], .initEmpty, env.prompt, 0⟩))).planDefault =
      some (tool_name, args)) :
    (run_agent env).history =
      [Entry.llmPlan 0 (promptAt env 0 ⟨[], .initEmpty, env.prompt, 0⟩)
        (interpretPlanCall (env.planSource 0
          (promptAt env 0 ⟨[], .initEmpty, env.prompt, 0⟩))),
       Entry.toolResult 0 tool_name args noToolExecutorResult] ∧
    (run_agent env).turns_executed = 2 ∧
    (run_agent env).history.getLast? =
      some (Entry.toolResult 0 tool_name args noToolExecutorResult) := by
  have hstate : run_agentState env =
      { history :=
          [Entry.llmPlan 0 (promptAt env 0 ⟨[], .initEmpty, env.prompt, 0⟩)
            (interpretPlanCall (env.planSource 0
              (promptAt env 0 ⟨[], .initEmpty, env.prompt, 0⟩))),
           Entry.toolResult 0 tool_name args noToolExecutorResult]
        llm_response :=
          interpretPlanCall (env.planSource 0
            (promptAt env 0 ⟨[], .initEmpty, env.prompt, 0⟩))
        current_prompt := promptAt env 0 ⟨[], .initEmpty, env.prompt, 0⟩
        planCalls := 1 } := by
    unfold run_agentState
    rw [hmax]
    simp only [runFrom, hplan, hexec]
    rfl
  refine ⟨?_, ?_, ?_⟩
  · show (run_agentState env).history = _
    rw [hstate]
  · show (run_agentState env).history.length = 2
    rw [hstate]
    rfl
  · show (run_agentState env).history.getLast? = _
    rw [hstate]
    rfl

/-- C1 witness: the amended claim at the concrete no-executor loop. -/
theorem C1_no_executor_amended_witness :
    (run_agent c1Env).history =
      [Entry.llmPlan 0 (promptAt c1Env 0 ⟨[], .initEmpty, c1Env.prompt, 0⟩)
        (interpretPlanCall (c1Env.planSource 0
          (promptAt c1Env 0 ⟨[], .initEmpty, c1Env.prompt, 0⟩))),
       Entry.toolResult 0 "t" [] noToolExecutorResult] ∧
    (run_agent c1Env).turns_executed = 2 ∧
    (run_agent c1Env).history.getLast? =
      some (Entry.toolResult 0 "t" [] noToolExecutorResult) :=
  C1_no_executor_amended c1Env 2 "t" [] rfl rfl (by rfl)
